import Mathlib

/-!
Verification of the persistent-grades feature-toggle configuration models
(`lms/djangoapps/grades/config/models.py`).

The store is a shallow embedding of the versioned configuration rows:
`PersistentGradesEnabledFlag` rows (global toggle), `CoursePersistentGradesFlag`
rows (per-course toggle, keyed by course_id) and `ComputeGradesSetting` rows.
`ConfigurationModel.current()` returns the row with the greatest change_date,
or a default row (all boolean fields false) when no row exists, and
`is_enabled()` returns `current().enabled`.  Course identifiers are modelled
as strings (opaque, string-serializable keys); the optional `course_id`
argument of `feature_enabled` is an `Option CourseId`, and its Python
truthiness test (`and course_id`) is `courseIdTruthy`.
-/

namespace GradesConfig

abbrev CourseId := String

/-- A row of the `PersistentGradesEnabledFlag` configuration model: the
`enabled` field inherited from `ConfigurationModel`, the
`enabled_for_all_courses` field, and the `change_date` version stamp. -/
structure PersistentGradesEnabledFlagRow where
  enabled : Bool
  enabled_for_all_courses : Bool
  change_date : Nat
deriving DecidableEq, Repr

/-- A row of the `CoursePersistentGradesFlag` configuration model, keyed by
`course_id` (KEY_FIELDS = ('course_id',)). -/
structure CoursePersistentGradesFlagRow where
  course_id : CourseId
  enabled : Bool
  change_date : Nat
deriving DecidableEq, Repr

/-- A row of the `ComputeGradesSetting` configuration model. -/
structure ComputeGradesSettingRow where
  batch_size : Int
  course_ids : String
  change_date : Nat
deriving DecidableEq, Repr

/-- The configuration store: the rows of the three configuration models.
Rows are append-only history; `current` is most-recent-by-change_date. -/
structure Store where
  globalRows : List PersistentGradesEnabledFlagRow
  courseRows : List CoursePersistentGradesFlagRow
  computeGradesRows : List ComputeGradesSettingRow
deriving DecidableEq, Repr

/-- The Django settings read by `feature_enabled`:
`settings.FEATURES.get('PERSISTENT_GRADES_ENABLED_FOR_ALL_TESTS')`, collapsed
to a boolean (absent or falsy value ↦ false). -/
structure Settings where
  PERSISTENT_GRADES_ENABLED_FOR_ALL_TESTS : Bool
deriving DecidableEq, Repr

/-- One step of the most-recent-row scan: keep whichever of the accumulator
and the next row has the greater change_date (the earlier row on a tie). -/
def latestStep {α : Type} (date : α → Nat) (acc : Option α) (r : α) : Option α :=
  match acc with
  | none => some r
  | some b => if date b < date r then some r else some b

/-- The most recent row by `date` (Django `order_by('-change_date').first()`),
or none when the list is empty. -/
def latestBy {α : Type} (date : α → Nat) (rows : List α) : Option α :=
  rows.foldl (latestStep date) none

/-- `PersistentGradesEnabledFlag.current()`: the most recent global row; when
no row exists, `ConfigurationModel.current` returns a default instance whose
boolean fields are false. -/
def PersistentGradesEnabledFlag.current (s : Store) : PersistentGradesEnabledFlagRow :=
  match latestBy (fun r => r.change_date) s.globalRows with
  | some r => r
  | none => { enabled := false, enabled_for_all_courses := false, change_date := 0 }

/-- `PersistentGradesEnabledFlag.is_enabled()`: the `enabled` field of the
current global row. -/
def PersistentGradesEnabledFlag.is_enabled (s : Store) : Bool :=
  (PersistentGradesEnabledFlag.current s).enabled

/-- Python truthiness of the optional `course_id` argument: `None` is falsy,
and a key is falsy exactly when its string form is empty. -/
def courseIdTruthy : Option CourseId → Bool
  | none => false
  | some c => !(c == "")

/-- `CoursePersistentGradesFlag.objects.filter(course_id=course_id)
.order_by('-change_date').first()`: the most recent per-course row for
`cid`, or none when the course has no row. -/
def coursePersistentGradesFlagFor (s : Store) (cid : CourseId) :
    Option CoursePersistentGradesFlagRow :=
  latestBy (fun r => r.change_date) (s.courseRows.filter (fun r => r.course_id == cid))

/-- `PersistentGradesEnabledFlag.feature_enabled(course_id)`, translated
line by line from the source:
test-override setting, then `is_enabled`, then the
`not current().enabled_for_all_courses and course_id` branch with the
per-course lookup, else `True`. -/
def feature_enabled (st : Settings) (s : Store) (course_id : Option CourseId) : Bool :=
  if st.PERSISTENT_GRADES_ENABLED_FOR_ALL_TESTS then
    true
  else if !(PersistentGradesEnabledFlag.is_enabled s) then
    false
  else if !(PersistentGradesEnabledFlag.current s).enabled_for_all_courses
      && courseIdTruthy course_id then
    match course_id with
    | some cid =>
      match coursePersistentGradesFlagFor s cid with
      | some effective => effective.enabled
      | none => false
    | none => false
  else
    true

/-- `feature_enabled` with the store threaded explicitly through every ORM
call: each of `settings.FEATURES.get`, `is_enabled()`, `current()` and the
per-course `filter(...).first()` is a read, so each returns the store it was
given.  The body follows the source branch for branch. -/
def feature_enabled_run (st : Settings) (s : Store) (course_id : Option CourseId) :
    Bool × Store :=
  if st.PERSISTENT_GRADES_ENABLED_FOR_ALL_TESTS then
    (true, s)
  else
    let read1 := (PersistentGradesEnabledFlag.is_enabled s, s)
    if !read1.1 then
      (false, read1.2)
    else
      let read2 := (PersistentGradesEnabledFlag.current read1.2, read1.2)
      if !read2.1.enabled_for_all_courses && courseIdTruthy course_id then
        match course_id with
        | some cid =>
          let read3 := (coursePersistentGradesFlagFor read2.2 cid, read2.2)
          (match read3.1 with
           | some effective => effective.enabled
           | none => false, read3.2)
        | none => (false, read2.2)
      else
        (true, read2.2)

/-- Modelled from the spec: the `request_cached` decorator
(`openedx.core.lib.cache_utils`, a module of this repository that is not part
of this source tree) memoizes the decorated function for the lifetime of the
current request, keyed by its arguments — here the `course_id` argument —
and the cache is discarded at the end of the request. -/
structure RequestCache where
  entries : List (Option CourseId × Bool)
deriving DecidableEq, Repr

/-- Modelled from the spec: look a key up in the request cache. -/
def RequestCache.lookup (c : RequestCache) (k : Option CourseId) : Option Bool :=
  match c.entries.find? (fun e => e.1 == k) with
  | some e => some e.2
  | none => none

/-- Modelled from the spec: the cache a request starts with. -/
def emptyRequestCache : RequestCache := ⟨[]⟩

/-- Modelled from the spec: the cache is discarded at the end of the request,
so the next request starts from the empty cache whatever this one held. -/
def endRequest (_ : RequestCache) : RequestCache := emptyRequestCache

/-- Modelled from the spec: `feature_enabled` behind `request_cached`.
Returns the result, the updated cache, and how many times the underlying
storage-backed resolution ran (0 on a cache hit, 1 on a miss). -/
def feature_enabled_cached (st : Settings) (s : Store) (c : RequestCache)
    (course_id : Option CourseId) : Bool × RequestCache × Nat :=
  match c.lookup course_id with
  | some v => (v, c, 0)
  | none =>
    let v := feature_enabled st s course_id
    (v, ⟨(course_id, v) :: c.entries⟩, 1)

/-- Creating a `ComputeGradesSetting` row without an explicit `batch_size`:
the field is `IntegerField(default=100)`, so the row gets batch_size 100. -/
def ComputeGradesSetting.create (course_ids : String) (change_date : Nat) :
    ComputeGradesSettingRow :=
  { batch_size := 100, course_ids := course_ids, change_date := change_date }

end GradesConfig

namespace GradesConfig

/-- The strict-maximum row is what the scan returns: helper invariant that a
settled accumulator survives rows whose date does not exceed it. -/
theorem foldl_latestStep_fixed {α : Type} (date : α → Nat) (b : α) (l : List α)
    (h : ∀ x ∈ l, date x ≤ date b) :
    l.foldl (latestStep date) (some b) = some b := by
  induction l with
  | nil => rfl
  | cons a t ih =>
    have ha : date a ≤ date b := h a (List.mem_cons_self a t)
    have hstep : latestStep date (some b) a = some b := by
      simp [latestStep, Nat.not_lt.mpr ha]
    rw [List.foldl_cons, hstep]
    exact ih (fun x hx => h x (List.mem_cons_of_mem a hx))

/-- The scan over a list containing `r`, all of whose other elements have a
strictly smaller date, returns `r`, for any accumulator below `r`. -/
theorem foldl_latestStep_strict_max {α : Type} (date : α → Nat) (r : α) :
    ∀ (l : List α) (acc : Option α), r ∈ l →
    (∀ x ∈ l, x ≠ r → date x < date r) →
    (acc = none ∨ ∃ b, acc = some b ∧ date b < date r) →
    l.foldl (latestStep date) acc = some r := by
  intro l
  induction l with
  | nil => intro acc hmem; exact absurd hmem (List.not_mem_nil r)
  | cons a t ih =>
    intro acc hmem hmax hacc
    have hle : ∀ x ∈ t, date x ≤ date r := by
      intro x hx
      by_cases hxr : x = r
      · exact le_of_eq (by rw [hxr])
      · exact le_of_lt (hmax x (List.mem_cons_of_mem a hx) hxr)
    by_cases har : a = r
    · subst har
      have hstep : latestStep date acc a = some a := by
        rcases hacc with h | ⟨b, hb, hlt⟩
        · simp [latestStep, h]
        · simp [latestStep, hb, hlt]
      rw [List.foldl_cons, hstep]
      exact foldl_latestStep_fixed date a t hle
    · have hmemt : r ∈ t := by
        rcases List.mem_cons.mp hmem with h | h
        · exact absurd h.symm har
        · exact h
      have hda : date a < date r := hmax a (List.mem_cons_self a t) har
      have hacc' : latestStep date acc a = none ∨
          ∃ b, latestStep date acc a = some b ∧ date b < date r := by
        rcases hacc with h | ⟨b, hb, hlt⟩
        · right; exact ⟨a, by simp [latestStep, h], hda⟩
        · right
          by_cases hba : date b < date a
          · exact ⟨a, by simp [latestStep, hb, hba], hda⟩
          · exact ⟨b, by simp [latestStep, hb, hba], hlt⟩
      rw [List.foldl_cons]
      exact ih (latestStep date acc a) hmemt
        (fun x hx => hmax x (List.mem_cons_of_mem a hx)) hacc'

/-- `latestBy` returns the row with the strictly greatest date. -/
theorem latestBy_eq_of_strict_max {α : Type} (date : α → Nat) (rows : List α) (r : α)
    (hmem : r ∈ rows) (hmax : ∀ x ∈ rows, x ≠ r → date x < date r) :
    latestBy date rows = some r :=
  foldl_latestStep_strict_max date r rows none hmem hmax (Or.inl rfl)

/-- C2: when the test-override setting is absent and the current global row
has enabled = false, `feature_enabled` returns false for every course_id,
regardless of per-course rows and of enabled_for_all_courses. -/
theorem c2_global_disabled_returns_false (st : Settings) (s : Store)
    (course_id : Option CourseId)
    (hflag : st.PERSISTENT_GRADES_ENABLED_FOR_ALL_TESTS = false)
    (hen : (PersistentGradesEnabledFlag.current s).enabled = false) :
    feature_enabled st s course_id = false := by
  simp [feature_enabled, PersistentGradesEnabledFlag.is_enabled, hflag, hen]

/-- C2 witness: global row disabled while enabled_for_all_courses is set and
the course has an enabled row; the result is still false. -/
theorem c2_global_disabled_returns_false_witness :
    feature_enabled ⟨false⟩
      ⟨[⟨false, true, 3⟩], [⟨"course-v1:edX+DemoX+2T", true, 1⟩], []⟩
      (some "course-v1:edX+DemoX+2T") = false :=
  c2_global_disabled_returns_false _ _ _ (by decide) (by decide)

/-- C3: when PERSISTENT_GRADES_ENABLED_FOR_ALL_TESTS is set,
`feature_enabled` returns true for every course_id and every store,
short-circuiting the global and per-course checks. -/
theorem c3_test_override_short_circuits (st : Settings) (s : Store)
    (course_id : Option CourseId)
    (hflag : st.PERSISTENT_GRADES_ENABLED_FOR_ALL_TESTS = true) :
    feature_enabled st s course_id = true := by
  simp [feature_enabled, hflag]

/-- C3 witness: test override set, everything else disabled; result true. -/
theorem c3_test_override_short_circuits_witness :
    feature_enabled ⟨true⟩
      ⟨[⟨false, false, 1⟩], [⟨"course-v1:edX+DemoX+3T", false, 1⟩], []⟩
      (some "course-v1:edX+DemoX+3T") = true :=
  c3_test_override_short_circuits _ _ _ (by decide)

/-- C4: when the current global row has enabled = true and
enabled_for_all_courses = true, `feature_enabled` returns true for every
course_id (the per-course rows, universally quantified here, are never
consulted). -/
theorem c4_enabled_for_all_courses_wins (st : Settings) (s : Store)
    (course_id : Option CourseId)
    (hen : (PersistentGradesEnabledFlag.current s).enabled = true)
    (hall : (PersistentGradesEnabledFlag.current s).enabled_for_all_courses = true) :
    feature_enabled st s course_id = true := by
  simp [feature_enabled, PersistentGradesEnabledFlag.is_enabled, hen, hall]

/-- C4 witness: global row enables all courses; a disabled per-course row is
ignored and the result is true. -/
theorem c4_enabled_for_all_courses_wins_witness :
    feature_enabled ⟨false⟩
      ⟨[⟨true, true, 2⟩], [⟨"course-v1:edX+DemoX+4T", false, 9⟩], []⟩
      (some "course-v1:edX+DemoX+4T") = true :=
  c4_enabled_for_all_courses_wins _ _ _ (by decide) (by decide)

/-- C5: when the current global row has enabled = true and
enabled_for_all_courses = false and no course_id is supplied,
`feature_enabled` returns true. -/
theorem c5_no_course_id_returns_true (st : Settings) (s : Store)
    (hen : (PersistentGradesEnabledFlag.current s).enabled = true)
    (hall : (PersistentGradesEnabledFlag.current s).enabled_for_all_courses = false) :
    feature_enabled st s none = true := by
  simp [feature_enabled, PersistentGradesEnabledFlag.is_enabled, courseIdTruthy, hen, hall]

/-- C5 witness: global enabled, not for all courses, no course context. -/
theorem c5_no_course_id_returns_true_witness :
    feature_enabled ⟨false⟩ ⟨[⟨true, false, 1⟩], [], []⟩ none = true :=
  c5_no_course_id_returns_true _ _ (by decide) (by decide)

/-- C6: test override absent, global enabled, enabled_for_all_courses false,
a course_id supplied for which no per-course row exists: the result is
false, produced by the total per-course lookup, not an error. -/
theorem c6_missing_course_row_returns_false (st : Settings) (s : Store)
    (cid : CourseId)
    (hflag : st.PERSISTENT_GRADES_ENABLED_FOR_ALL_TESTS = false)
    (hen : (PersistentGradesEnabledFlag.current s).enabled = true)
    (hall : (PersistentGradesEnabledFlag.current s).enabled_for_all_courses = false)
    (hcid : cid ≠ "")
    (hnone : ∀ r ∈ s.courseRows, r.course_id ≠ cid) :
    feature_enabled st s (some cid) = false := by
  have hfilter : s.courseRows.filter (fun r => r.course_id == cid) = [] := by
    rw [List.filter_eq_nil_iff]
    intro r hr
    simp [hnone r hr]
  simp [feature_enabled, PersistentGradesEnabledFlag.is_enabled,
    coursePersistentGradesFlagFor, latestBy, courseIdTruthy,
    hflag, hen, hall, hcid, hfilter]

/-- C6 witness: the only per-course row is for another course. -/
theorem c6_missing_course_row_returns_false_witness :
    feature_enabled ⟨false⟩
      ⟨[⟨true, false, 1⟩], [⟨"course-v1:edX+Other+6T", true, 1⟩], []⟩
      (some "course-v1:edX+DemoX+6T") = false :=
  c6_missing_course_row_returns_false _ _ _ (by decide) (by decide) (by decide)
    (by decide) (by decide)

/-- C1: test override absent, global enabled, enabled_for_all_courses false:
for a (truthy) course_id, `feature_enabled` returns the enabled value of the
row with the strictly greatest change_date among that course's rows; older
rows do not override it. -/
theorem c1_latest_course_row_wins (st : Settings) (s : Store) (cid : CourseId)
    (r : CoursePersistentGradesFlagRow)
    (hflag : st.PERSISTENT_GRADES_ENABLED_FOR_ALL_TESTS = false)
    (hen : (PersistentGradesEnabledFlag.current s).enabled = true)
    (hall : (PersistentGradesEnabledFlag.current s).enabled_for_all_courses = false)
    (hcid : cid ≠ "")
    (hmem : r ∈ s.courseRows) (hkey : r.course_id = cid)
    (hlatest : ∀ x ∈ s.courseRows, x.course_id = cid → x ≠ r →
      x.change_date < r.change_date) :
    feature_enabled st s (some cid) = r.enabled := by
  have hmemf : r ∈ s.courseRows.filter (fun x => x.course_id == cid) :=
    List.mem_filter.mpr ⟨hmem, by simp [hkey]⟩
  have hmaxf : ∀ x ∈ s.courseRows.filter (fun x => x.course_id == cid),
      x ≠ r → x.change_date < r.change_date := by
    intro x hx hxr
    have hx' := List.mem_filter.mp hx
    exact hlatest x hx'.1 (by simpa using hx'.2) hxr
  have heff : coursePersistentGradesFlagFor s cid = some r :=
    latestBy_eq_of_strict_max _ _ r hmemf hmaxf
  simp [feature_enabled, PersistentGradesEnabledFlag.is_enabled,
    courseIdTruthy, hflag, hen, hall, hcid, heff]

/-- C1 witness: the course has an older disabled row and a newer enabled
row; the newer row wins and the result is true. -/
theorem c1_latest_course_row_wins_witness :
    feature_enabled ⟨false⟩
      ⟨[⟨true, false, 5⟩],
       [⟨"course-v1:edX+DemoX+1T", false, 1⟩, ⟨"course-v1:edX+DemoX+1T", true, 2⟩],
       []⟩
      (some "course-v1:edX+DemoX+1T") = true :=
  c1_latest_course_row_wins ⟨false⟩ _ "course-v1:edX+DemoX+1T"
    ⟨"course-v1:edX+DemoX+1T", true, 2⟩
    (by decide) (by decide) (by decide) (by decide) (by decide) (by decide) (by decide)

/-- C9: a falsy supplied course_id (e.g. an empty key) behaves exactly as no
course_id: the result equals `feature_enabled` at `none`, and it is true
whenever the current global row has enabled = true. -/
theorem c9_falsy_course_id_like_none (st : Settings) (s : Store)
    (course_id : Option CourseId)
    (hfalsy : courseIdTruthy course_id = false)
    (hen : (PersistentGradesEnabledFlag.current s).enabled = true) :
    feature_enabled st s course_id = feature_enabled st s none ∧
    feature_enabled st s course_id = true := by
  have hnone : courseIdTruthy none = false := rfl
  constructor <;>
    simp [feature_enabled, PersistentGradesEnabledFlag.is_enabled,
      hfalsy, hnone, hen]

/-- C9 witness: course_id is the empty key; the disabled per-course row
stored under the empty key is skipped and the result is true. -/
theorem c9_falsy_course_id_like_none_witness :
    feature_enabled ⟨false⟩ ⟨[⟨true, false, 1⟩], [⟨"", false, 3⟩], []⟩ (some "") =
      feature_enabled ⟨false⟩ ⟨[⟨true, false, 1⟩], [⟨"", false, 3⟩], []⟩ none ∧
    feature_enabled ⟨false⟩ ⟨[⟨true, false, 1⟩], [⟨"", false, 3⟩], []⟩ (some "") = true :=
  c9_falsy_course_id_like_none _ _ _ (by decide) (by decide)

/-- C7: `feature_enabled` mutates nothing: threading the store through every
ORM call, the store that comes out is the store that went in — the global,
per-course and batch-setting rows are all unchanged — and the value computed
is the pure resolver's value. -/
theorem c7_feature_enabled_no_mutation (st : Settings) (s : Store)
    (course_id : Option CourseId) :
    (feature_enabled_run st s course_id).2 = s ∧
    (feature_enabled_run st s course_id).1 = feature_enabled st s course_id := by
  cases course_id with
  | none =>
    simp only [feature_enabled_run, feature_enabled]
    split_ifs <;> simp
  | some cid =>
    simp only [feature_enabled_run, feature_enabled]
    split_ifs <;> simp

/-- C8: within one request, `feature_enabled` behind the request cache is
memoized by course_id: the first call computes the pure result and runs the
storage resolution once, the second call with the same course_id returns the
same result running the resolution zero times, and after the cache is
discarded at end of request a fresh call runs the resolution again. -/
theorem c8_request_cached_memoizes (st : Settings) (s : Store)
    (course_id : Option CourseId) :
    (feature_enabled_cached st s emptyRequestCache course_id).1 =
      feature_enabled st s course_id ∧
    (feature_enabled_cached st s emptyRequestCache course_id).2.2 = 1 ∧
    (feature_enabled_cached st s
      (feature_enabled_cached st s emptyRequestCache course_id).2.1 course_id).1 =
      feature_enabled st s course_id ∧
    (feature_enabled_cached st s
      (feature_enabled_cached st s emptyRequestCache course_id).2.1 course_id).2.2 = 0 ∧
    (feature_enabled_cached st s
      (endRequest (feature_enabled_cached st s emptyRequestCache course_id).2.1)
      course_id).2.2 = 1 := by
  simp [feature_enabled_cached, RequestCache.lookup, emptyRequestCache,
    endRequest, List.find?]

/-- C10: a ComputeGradesSetting row created without an explicit batch_size
has batch_size = 100. -/
theorem c10_batch_size_default (course_ids : String) (change_date : Nat) :
    (ComputeGradesSetting.create course_ids change_date).batch_size = 100 :=
  rfl

end GradesConfig
